import Mathlib

/-!
Shallow embedding of `euxfel_karabo_bridge/simulation.py`: the frame factory
`gen_combined_detector_data`, the detector parameter selection
`set_detector_params`, the startup sequence of `start_gen`, and the
producer/consumer system formed by `generate` (producer thread) and the
request/reply loop of `start_gen` (consumer), sharing a `deque(maxlen=10)`.
-/

namespace KaraboSim

/-! ## Numpy-like data model

Arrays carry an element dtype; element values are natural numbers already
reduced modulo the dtype width where the source stores into a numpy array.
Small 1-D arrays are concrete lists; the large 4-D image tensor is a shape
together with an index-to-value function. -/

inductive DType where
  | uint8
  | int8
  | uint16
  | uint32
  | uint64
deriving DecidableEq, Repr

structure NDArray1 where
  dtype : DType
  data : List Nat
deriving DecidableEq, Repr

structure Image4D where
  shape : List Nat
  dtype : DType
  val : Nat → Nat → Nat → Nat → Nat

/-- The timestamp dict of the metadata: tid, sec = int(sec), frac = int(frac). -/
structure Timestamp where
  tid : Nat
  sec : Nat
  frac : Nat
deriving DecidableEq, Repr

structure Metadata where
  source : String
  timestamp : Timestamp
deriving DecidableEq, Repr

/-- One generated frame: the flat dict built by `gen_combined_detector_data`,
with the dict keys (image.data, trailer.trainId, ...) as fields. -/
structure Frame where
  metadata : Metadata
  image_data : Image4D
  image_cellId : NDArray1
  image_length : NDArray1
  image_pulseId : NDArray1
  image_trainId : NDArray1
  image_status : NDArray1
  trailer_checksum : NDArray1
  trailer_magicNumberEnd : NDArray1
  trailer_status : Nat
  trailer_trainId : Nat
  detector_data : NDArray1
  detector_trainId : Nat
  header_dataId : Nat
  header_linkId : Nat
  header_magicNumberBegin : NDArray1
  header_majorTrainFormatVersion : Nat
  header_minorTrainFormatVersion : Nat
  header_pulseCount : Nat
  header_reserved : NDArray1
  header_trainId : Nat

/-! ## Constants (lines 32-37): AGIPD geometry; `_MOD_X`/`_MOD_Y` are module
globals mutated by `set_detector_params`, so they are parameters below. -/

def PULSES : Nat := 32
def MODULES : Nat := 16

/-- Parsing a decimal digit string with int(s), on the digit list it denotes. -/
def digitsToNat (ds : List (Fin 10)) : Nat :=
  ds.foldl (fun a d => 10 * a + d.val) 0

/-- The frame factory `gen_combined_detector_data` (lines 48-114).

The wall-clock reading `str(time())` is passed as its two digit strings:
`secD` the digits before the decimal point and `fracD` the digits after it
(the Python repr of a positive float always has at least one digit on each
side).  Then `tid = int(sec + frac[:1])` concatenates the strings and parses.
The random draws (already truncated to integers by the uint16 store) are
abstracted as `rand`; `modX`/`modY` are the current `_MOD_X`/`_MOD_Y`
globals. -/
def gen_combined_detector_data (source : String) (modX modY : Nat)
    (secD fracD : List (Fin 10)) (rand : Nat → Nat → Nat → Nat → Nat) : Frame :=
  let sec := digitsToNat secD
  let tid := digitsToNat (secD ++ fracD.take 1)
  { metadata := ⟨source, ⟨tid, sec, digitsToNat fracD⟩⟩
    image_data := ⟨[PULSES, MODULES, modX, modY], .uint16,
                   fun p m x y => rand p m x y % 2 ^ 16⟩
    image_cellId := ⟨.uint16, (List.range PULSES).map (fun i => i % 2 ^ 16)⟩
    image_length := ⟨.uint32, List.replicate PULSES (131072 % 2 ^ 32)⟩
    image_pulseId := ⟨.uint64, (List.range PULSES).map (fun i => i % 2 ^ 64)⟩
    image_trainId := ⟨.uint64, List.replicate PULSES (tid % 2 ^ 64)⟩
    image_status := ⟨.uint16, List.replicate PULSES 0⟩
    trailer_checksum := ⟨.int8, List.replicate 16 1⟩
    trailer_magicNumberEnd := ⟨.int8, List.replicate 8 1⟩
    trailer_status := 0
    trailer_trainId := tid
    detector_data := ⟨.uint8, List.replicate 416 1⟩
    detector_trainId := tid
    header_dataId := 0
    header_linkId := 2 ^ 64 - 1
    header_magicNumberBegin := ⟨.int8, List.replicate 8 1⟩
    header_majorTrainFormatVersion := 2
    header_minorTrainFormatVersion := 1
    header_pulseCount := PULSES
    header_reserved := ⟨.uint8, List.replicate 16 1⟩
    header_trainId := tid }

/-- The geometry selection `set_detector_params` (lines 131-139): returns the new
`(_MOD_X, _MOD_Y)` globals and the source string. -/
def set_detector_params (det : String) : (Nat × Nat) × String :=
  if det = "LPD" then ((256, 256), "FXE_DET_LPD1M-1/DET/detector")
  else ((512, 128), "SPB_DET_AGIPD1M-1/DET/detector")

/-! ## Startup sequence of `start_gen` (lines 142-159). -/

inductive SerKind where
  | msgpack
  | pickle
deriving DecidableEq, Repr

/-- Serializer selection (lines 150-153): an if/elif chain on the strings
msgpack and pickle with no else branch, so any other string leaves the
serialize name unbound (`none`). -/
def selectSerializer (ser : String) : Option SerKind :=
  if ser = "msgpack" then some .msgpack
  else if ser = "pickle" then some .pickle
  else none

structure StartupState where
  bound : Bool
  geom : Nat × Nat
  source : String
  serializer : Option SerKind
deriving DecidableEq, Repr

/-- The startup of `start_gen(port, ser, det)`: the socket is bound (line 146)
unconditionally, before `set_detector_params` (line 148) and before the
serializer selection (lines 150-153); no configuration check precedes it. -/
def start_gen_startup (ser det : String) : StartupState :=
  let sd := set_detector_params det
  { bound := true
    geom := sd.1
    source := sd.2
    serializer := selectSerializer ser }

/-! ## Producer/consumer system

`generate` (lines 117-128) is the single producer: each loop iteration checks
`len(queue) < queue.maxlen` and only then appends a fresh frame; otherwise it
sleeps.  The serving loop of `start_gen` (lines 161-170) is the single
consumer: it receives a request, and on the request token `nextTok` waits for
the queue to be non-empty, then pops the oldest frame and replies; any other
request breaks out of the loop.  The queue is `deque(maxlen=10)` (line 155).

An execution is an arbitrary interleaving of atomic steps of the two threads
(CPython makes the individual deque operations atomic); the scheduler picks
the next step, and a `recv` step carries the message bytes of the client.  The
payload type is a parameter: the queue machinery never inspects frames.
`pushed`, `sent` and `nextCount` are history variables recording successful
pushes, replies and accepted `next` requests. -/

/-- The states of the serving loop: at `socket.recv` (top of the while),
inside the wait-then-send for the current request, or after `break`. -/
inductive Mode where
  | awaitReq
  | awaitData
  | stopped
deriving DecidableEq, Repr

/-- The literal request token (the four ASCII bytes of the word next). -/
def nextTok : List Nat := [110, 101, 120, 116]

structure SimState (α : Type) where
  queue : List α
  pushed : List α
  sent : List α
  mode : Mode
  produced : Nat
  nextCount : Nat
deriving DecidableEq, Repr

/-- The body of the `generate` loop (lines 120-126): append to the tail iff
`len(queue) < queue.maxlen` (maxlen = 10), else leave the queue alone
(`sleep(0.1)` branch); the `Bool` reports whether the push took place. -/
def tryPush {α : Type} (q : List α) (f : α) : Bool × List α :=
  if q.length < 10 then (true, q ++ [f]) else (false, q)

inductive Act where
  | produce
  | recv (m : List Nat)
  | reply
deriving DecidableEq, Repr

/-- One atomic step of the interleaved system.  `supply n` is the frame built
by the n-th producer call of `gen_combined_detector_data`. -/
def step {α : Type} (supply : Nat → α) (s : SimState α) : Act → SimState α
  | .produce =>
      if (tryPush s.queue (supply s.produced)).1 then
        { s with queue := (tryPush s.queue (supply s.produced)).2,
                 pushed := s.pushed ++ [supply s.produced],
                 produced := s.produced + 1 }
      else s
  | .recv m =>
      match s.mode with
      | .awaitReq =>
          if m = nextTok then
            { s with mode := .awaitData, nextCount := s.nextCount + 1 }
          else
            { s with mode := .stopped }
      | _ => s
  | .reply =>
      match s.mode, s.queue with
      | .awaitData, f :: q =>
          { s with queue := q, sent := s.sent ++ [f], mode := .awaitReq }
      | .awaitData, [] => s
      | .awaitReq, _ => s
      | .stopped, _ => s

/-- Run a schedule of steps from a state. -/
def run {α : Type} (supply : Nat → α) (s : SimState α) (acts : List Act) :
    SimState α :=
  acts.foldl (step supply) s

/-- The state right after `start_gen` starts the generator thread: empty
queue, serving loop at `socket.recv`. -/
def initState {α : Type} : SimState α :=
  { queue := [], pushed := [], sent := [], mode := .awaitReq,
    produced := 0, nextCount := 0 }

/-- The schedule that serves n pending frames: for each one a `next` request
is received and the reply sent. -/
def drainActs : Nat → List Act
  | 0 => []
  | n + 1 => Act.recv nextTok :: Act.reply :: drainActs n

/-! ## Value of a wall-clock reading

`gen_combined_detector_data` consumes the reading as the digit strings of
`str(time())`; the rational number those digits denote is used to state the
claims that talk about the reading itself (ordering, distinctness). -/

/-- Value of a fractional digit string d1...dk as the rational 0.d1...dk. -/
def fracVal : List (Fin 10) → ℚ
  | [] => 0
  | d :: ds => ((d.val : ℚ) + fracVal ds) / 10

/-- The rational number denoted by a reading `secD.fracD`. -/
def readingVal (secD fracD : List (Fin 10)) : ℚ :=
  (digitsToNat secD : ℚ) + fracVal fracD

/-! ## Helper lemmas about runs -/

theorem run_cons {α : Type} (supply : Nat → α) (s : SimState α) (a : Act)
    (acts : List Act) :
    run supply s (a :: acts) = run supply (step supply s a) acts := rfl

theorem run_append {α : Type} (supply : Nat → α) (s : SimState α)
    (as bs : List Act) :
    run supply s (as ++ bs) = run supply (run supply s as) bs := by
  simp [run, List.foldl_append]

theorem run_preserve {α : Type} (supply : Nat → α) (P : SimState α → Prop)
    (h : ∀ s a, P s → P (step supply s a)) :
    ∀ (acts : List Act) (s : SimState α), P s → P (run supply s acts)
  | [], _, hs => hs
  | a :: acts, s, hs =>
      run_preserve supply P h acts (step supply s a) (h s a hs)

theorem step_queue_le {α : Type} (supply : Nat → α) (s : SimState α) (a : Act)
    (h : s.queue.length ≤ 10) : (step supply s a).queue.length ≤ 10 := by
  obtain ⟨q, pu, se, mo, pr, nc⟩ := s
  have h' : q.length ≤ 10 := h
  cases a with
  | produce =>
      by_cases hlt : q.length < 10
      · simp [step, tryPush, hlt]
        omega
      · simpa [step, tryPush, hlt] using h'
  | recv m =>
      cases mo
      · simp only [step]
        split <;> exact h'
      · exact h'
      · exact h'
  | reply =>
      cases mo <;> cases q
      case awaitData.cons f rest =>
        have : rest.length + 1 ≤ 10 := h'
        simpa [step] using by omega
      all_goals exact h'

theorem step_fifo {α : Type} (supply : Nat → α) (s : SimState α) (a : Act)
    (h : s.pushed = s.sent ++ s.queue) :
    (step supply s a).pushed = (step supply s a).sent ++ (step supply s a).queue := by
  obtain ⟨q, pu, se, mo, pr, nc⟩ := s
  have h' : pu = se ++ q := h
  cases a with
  | produce =>
      by_cases hlt : q.length < 10
      · simp [step, tryPush, hlt, h']
      · simpa [step, tryPush, hlt] using h'
  | recv m =>
      cases mo
      · simp only [step]
        split <;> exact h'
      · exact h'
      · exact h'
  | reply =>
      cases mo <;> cases q
      case awaitData.cons f rest =>
        simp [step, h']
      all_goals exact h'

theorem step_count {α : Type} (supply : Nat → α) (s : SimState α) (a : Act)
    (h : s.sent.length + (if s.mode = .awaitData then 1 else 0) = s.nextCount) :
    (step supply s a).sent.length
      + (if (step supply s a).mode = .awaitData then 1 else 0)
      = (step supply s a).nextCount := by
  obtain ⟨q, pu, se, mo, pr, nc⟩ := s
  cases a with
  | produce =>
      by_cases hlt : q.length < 10
      · simpa [step, tryPush, hlt] using h
      · simpa [step, tryPush, hlt] using h
  | recv m =>
      cases mo
      · simp only [step]
        split
        · simpa using h
        · simpa using h
      · exact h
      · exact h
  | reply =>
      cases mo <;> cases q
      case awaitData.cons f rest =>
        simp at h
        simpa [step] using h
      all_goals exact h

theorem step_sent_of_empty {α : Type} (supply : Nat → α) (s : SimState α)
    (a : Act) (h : s.queue = []) : (step supply s a).sent = s.sent := by
  obtain ⟨q, pu, se, mo, pr, nc⟩ := s
  subst h
  cases a with
  | produce => simp [step, tryPush]
  | recv m =>
      cases mo
      · simp only [step]
        split <;> rfl
      · rfl
      · rfl
  | reply => cases mo <;> simp [step]

theorem run_stopped_frozen {α : Type} (supply : Nat → α) :
    ∀ (acts : List Act) (s : SimState α), s.mode = .stopped →
      (run supply s acts).mode = .stopped ∧
      (run supply s acts).sent = s.sent ∧
      (run supply s acts).nextCount = s.nextCount := by
  intro acts
  induction acts with
  | nil => intro s hs; exact ⟨hs, rfl, rfl⟩
  | cons a as ih =>
      intro s hs
      have hstep : (step supply s a).mode = .stopped ∧
          (step supply s a).sent = s.sent ∧
          (step supply s a).nextCount = s.nextCount := by
        obtain ⟨q, pu, se, mo, pr, nc⟩ := s
        cases hs
        cases a with
        | produce =>
            by_cases hlt : q.length < 10 <;>
              simp [step, tryPush, hlt]
        | recv m => simp [step]
        | reply => cases q <;> simp [step]
      obtain ⟨h1, h2, h3⟩ := hstep
      obtain ⟨g1, g2, g3⟩ := ih (step supply s a) h1
      exact ⟨g1, by rw [run_cons, g2, h2], by rw [run_cons, g3, h3]⟩

theorem run_drain {α : Type} (supply : Nat → α) :
    ∀ (n : Nat) (s : SimState α), s.mode = .awaitReq → s.queue.length = n →
      (run supply s (drainActs n)).sent = s.sent ++ s.queue := by
  intro n
  induction n with
  | zero =>
      intro s hm hq
      rw [List.length_eq_zero] at hq
      simp [drainActs, run, hq]
  | succ n ih =>
      intro s hm hq
      obtain ⟨q, pu, se, mo, pr, nc⟩ := s
      cases hm
      cases q with
      | nil => simp at hq
      | cons f rest =>
          have h1 : step supply ⟨f :: rest, pu, se, .awaitReq, pr, nc⟩
              (.recv nextTok)
              = ⟨f :: rest, pu, se, .awaitData, pr, nc + 1⟩ := by
            simp [step]
          have h2 : step supply ⟨f :: rest, pu, se, .awaitData, pr, nc + 1⟩
              .reply
              = ⟨rest, pu, se ++ [f], .awaitReq, pr, nc + 1⟩ := by
            simp [step]
          have hrest : rest.length = n := by
            simpa using hq
          calc (run supply ⟨f :: rest, pu, se, .awaitReq, pr, nc⟩
                  (drainActs (n + 1))).sent
              = (run supply ⟨rest, pu, se ++ [f], .awaitReq, pr, nc + 1⟩
                  (drainActs n)).sent := by
                simp only [drainActs, run_cons, h1, h2]
            _ = (se ++ [f]) ++ rest := ih _ rfl hrest
            _ = se ++ (f :: rest) := by simp

theorem step_recv_bad {α : Type} (supply : Nat → α) (s : SimState α)
    (m : List Nat) (hm : m ≠ nextTok) (hmode : s.mode = .awaitReq) :
    step supply s (.recv m) = { s with mode := .stopped } := by
  obtain ⟨q, pu, se, mo, pr, nc⟩ := s
  cases mo
  · simp [step, hm]
  · simp at hmode
  · simp at hmode

theorem step_reply_pop {α : Type} (supply : Nat → α) (s : SimState α)
    (f : α) (q : List α) (hmode : s.mode = .awaitData) (hq : s.queue = f :: q) :
    step supply s .reply
      = { s with queue := q, sent := s.sent ++ [f], mode := .awaitReq } := by
  obtain ⟨q', pu, se, mo, pr, nc⟩ := s
  have hq' : q' = f :: q := hq
  subst hq'
  cases mo
  · simp at hmode
  · simp [step]
  · simp at hmode

/-! ## Arithmetic helper lemmas -/

theorem digitsToNat_concat (xs : List (Fin 10)) (d : Fin 10) :
    digitsToNat (xs ++ [d]) = 10 * digitsToNat xs + d.val := by
  simp [digitsToNat, List.foldl_append]

theorem fracVal_nonneg (ds : List (Fin 10)) : 0 ≤ fracVal ds := by
  induction ds with
  | nil => simp [fracVal]
  | cons d ds ih =>
      have hd : (0 : ℚ) ≤ (d.val : ℚ) := by positivity
      exact div_nonneg (add_nonneg hd ih) (by norm_num)

theorem fracVal_lt_one (ds : List (Fin 10)) : fracVal ds < 1 := by
  induction ds with
  | nil => norm_num [fracVal]
  | cons d ds ih =>
      have hd : (d.val : ℚ) ≤ 9 := by
        exact_mod_cast Nat.lt_succ_iff.mp d.isLt
      have hsum : (d.val : ℚ) + fracVal ds < 10 := by linarith
      simpa [fracVal] using (div_lt_one (by norm_num : (0:ℚ) < 10)).mpr hsum

theorem ten_mul_readingVal (secD : List (Fin 10)) (d : Fin 10)
    (ds : List (Fin 10)) :
    10 * readingVal secD (d :: ds)
      = (digitsToNat (secD ++ [d]) : ℚ) + fracVal ds := by
  rw [readingVal, fracVal, digitsToNat_concat]
  push_cast
  ring

/-! ## Claims -/

/-- Claim C1: along every interleaved execution from the initial state the
frame queue holds at most K = 10 frames, and a `tryPush` against a queue that
already holds 10 frames fails without blocking: it reports `false` and leaves
the occupancy and contents of the queue unchanged (nothing appended, nothing
dropped). -/
theorem claim_C1_queue_bound {α : Type} (supply : Nat → α) (acts : List Act)
    (q : List α) (f : α) (hq : q.length = 10) :
    (run supply initState acts).queue.length ≤ 10 ∧ tryPush q f = (false, q) := by
  constructor
  · exact run_preserve supply (fun s => s.queue.length ≤ 10)
      (fun s a h => step_queue_le supply s a h) acts initState (Nat.zero_le 10)
  · simp [tryPush, hq]

theorem claim_C1_witness :
    (List.replicate 10 (0 : Nat)).length = 10 ∧
    ((run (fun n => n) initState [Act.produce, Act.produce]).queue.length ≤ 10 ∧
      tryPush (List.replicate 10 (0 : Nat)) 7 = (false, List.replicate 10 0)) :=
  ⟨by decide,
   claim_C1_queue_bound (fun n => n) [Act.produce, Act.produce]
     (List.replicate 10 0) 7 (by decide)⟩

/-- Claim C2: in every generated frame, every element of the `image.trainId`
array and the scalars `trailer.trainId`, `detector.trainId` and
`header.trainId` equal the metadata timestamp `tid` (for readings whose `tid`
fits the uint64 array elements, which holds for every real wall clock). -/
theorem claim_C2_trainId_consistent (source : String) (modX modY : Nat)
    (secD fracD : List (Fin 10)) (rand : Nat → Nat → Nat → Nat → Nat)
    (h : digitsToNat (secD ++ fracD.take 1) < 2 ^ 64) :
    (∀ x ∈ (gen_combined_detector_data source modX modY secD fracD
        rand).image_trainId.data,
      x = (gen_combined_detector_data source modX modY secD fracD
        rand).metadata.timestamp.tid) ∧
    (gen_combined_detector_data source modX modY secD fracD rand).trailer_trainId
      = (gen_combined_detector_data source modX modY secD fracD
          rand).metadata.timestamp.tid ∧
    (gen_combined_detector_data source modX modY secD fracD rand).detector_trainId
      = (gen_combined_detector_data source modX modY secD fracD
          rand).metadata.timestamp.tid ∧
    (gen_combined_detector_data source modX modY secD fracD rand).header_trainId
      = (gen_combined_detector_data source modX modY secD fracD
          rand).metadata.timestamp.tid := by
  refine ⟨?_, rfl, rfl, rfl⟩
  intro x hx
  have hx' : x ∈ List.replicate PULSES
      (digitsToNat (secD ++ fracD.take 1) % 2 ^ 64) := hx
  have := List.eq_of_mem_replicate hx'
  show x = digitsToNat (secD ++ fracD.take 1)
  rw [this, Nat.mod_eq_of_lt h]

theorem claim_C2_witness :
    digitsToNat (([1] : List (Fin 10)) ++ (([2] : List (Fin 10)).take 1)) < 2 ^ 64 ∧
    (∀ x ∈ (gen_combined_detector_data "src" 512 128 [1] [2]
        (fun _ _ _ _ => 0)).image_trainId.data,
      x = (gen_combined_detector_data "src" 512 128 [1] [2]
        (fun _ _ _ _ => 0)).metadata.timestamp.tid) :=
  ⟨by decide,
   (claim_C2_trainId_consistent "src" 512 128 [1] [2] (fun _ _ _ _ => 0)
       (by decide)).1⟩

/-- Claim C3: the metadata trainId is obtained by appending the first
fractional digit to the decimal digits of the integer seconds:
`tid = 10 * sec + d` where `d` is the leading fractional digit. -/
theorem claim_C3_tid_concat (source : String) (modX modY : Nat)
    (secD fracD : List (Fin 10)) (rand : Nat → Nat → Nat → Nat → Nat)
    (h : fracD ≠ []) :
    (gen_combined_detector_data source modX modY secD fracD
        rand).metadata.timestamp.tid
      = 10 * (gen_combined_detector_data source modX modY secD fracD
          rand).metadata.timestamp.sec + fracD.headI.val := by
  cases fracD with
  | nil => exact absurd rfl h
  | cons d ds => exact digitsToNat_concat secD d

theorem claim_C3_witness :
    ([3] : List (Fin 10)) ≠ [] ∧
    (gen_combined_detector_data "src" 512 128 [1, 2] [3]
        (fun _ _ _ _ => 0)).metadata.timestamp.tid
      = 10 * (gen_combined_detector_data "src" 512 128 [1, 2] [3]
          (fun _ _ _ _ => 0)).metadata.timestamp.sec
        + ([3] : List (Fin 10)).headI.val :=
  ⟨by decide,
   claim_C3_tid_concat "src" 512 128 [1, 2] [3] (fun _ _ _ _ => 0) (by decide)⟩

/-- Claim C4: trainIds are monotone in the wall-clock reading: whenever the
reading of one generation is ≤ the reading of another (as rational numbers),
the tid of the first frame is ≤ the tid of the second (non-strict: readings in the same
tenth-of-a-second bucket give equal tids). -/
theorem claim_C4_tid_monotone (source : String) (modX modY : Nat)
    (rand : Nat → Nat → Nat → Nat → Nat)
    (s₁ f₁ s₂ f₂ : List (Fin 10)) (h₁ : f₁ ≠ []) (h₂ : f₂ ≠ [])
    (hle : readingVal s₁ f₁ ≤ readingVal s₂ f₂) :
    (gen_combined_detector_data source modX modY s₁ f₁
        rand).metadata.timestamp.tid
      ≤ (gen_combined_detector_data source modX modY s₂ f₂
          rand).metadata.timestamp.tid := by
  cases f₁ with
  | nil => exact absurd rfl h₁
  | cons d₁ ds₁ =>
    cases f₂ with
    | nil => exact absurd rfl h₂
    | cons d₂ ds₂ =>
      show digitsToNat (s₁ ++ [d₁]) ≤ digitsToNat (s₂ ++ [d₂])
      have k₁ := ten_mul_readingVal s₁ d₁ ds₁
      have k₂ := ten_mul_readingVal s₂ d₂ ds₂
      have n₁ := fracVal_nonneg ds₁
      have l₂ := fracVal_lt_one ds₂
      have h10 : 10 * readingVal s₁ (d₁ :: ds₁)
          ≤ 10 * readingVal s₂ (d₂ :: ds₂) := by linarith
      have hlt : (digitsToNat (s₁ ++ [d₁]) : ℚ)
          < (digitsToNat (s₂ ++ [d₂]) : ℚ) + 1 := by linarith
      have hnat : digitsToNat (s₁ ++ [d₁]) < digitsToNat (s₂ ++ [d₂]) + 1 := by
        exact_mod_cast hlt
      omega

theorem claim_C4_witness :
    ([5] : List (Fin 10)) ≠ [] ∧ ([6] : List (Fin 10)) ≠ [] ∧
    readingVal [1] [5] ≤ readingVal [1] [6] ∧
    (gen_combined_detector_data "src" 512 128 [1] [5]
        (fun _ _ _ _ => 0)).metadata.timestamp.tid
      ≤ (gen_combined_detector_data "src" 512 128 [1] [6]
          (fun _ _ _ _ => 0)).metadata.timestamp.tid :=
  ⟨by decide, by decide,
   by norm_num [readingVal, fracVal, digitsToNat,
     show ((1 : Fin 10)).val = 1 from rfl, show ((5 : Fin 10)).val = 5 from rfl,
     show ((6 : Fin 10)).val = 6 from rfl],
   claim_C4_tid_monotone "src" 512 128 (fun _ _ _ _ => 0) [1] [5] [1] [6]
     (by decide) (by decide)
     (by norm_num [readingVal, fracVal, digitsToNat,
       show ((1 : Fin 10)).val = 1 from rfl, show ((5 : Fin 10)).val = 5 from rfl,
       show ((6 : Fin 10)).val = 6 from rfl])⟩

/-- Claim C5: single-producer/single-consumer FIFO exactness: along every
interleaving, the frames delivered so far are exactly an initial segment of
the frames whose push succeeded, in push order (never skipped, duplicated or
reordered), the remainder being still queued; and whenever the serving loop is
back at `recv`, some continuation of the run delivers every pushed frame, each
by exactly one pop. -/
theorem claim_C5_fifo_delivery {α : Type} (supply : Nat → α) (acts : List Act) :
    (run supply initState acts).pushed
      = (run supply initState acts).sent ++ (run supply initState acts).queue ∧
    ((run supply initState acts).mode = .awaitReq →
      ∃ ext, (run supply initState (acts ++ ext)).sent
        = (run supply initState acts).pushed) := by
  have hfifo : (run supply initState acts).pushed
      = (run supply initState acts).sent ++ (run supply initState acts).queue :=
    run_preserve supply (fun s => s.pushed = s.sent ++ s.queue)
      (fun s a h => step_fifo supply s a h) acts initState rfl
  refine ⟨hfifo, fun hmode => ?_⟩
  refine ⟨drainActs (run supply initState acts).queue.length, ?_⟩
  rw [run_append, run_drain supply _ _ hmode rfl]
  exact hfifo.symm

theorem claim_C5_witness :
    (run (fun n => n) initState
        [Act.produce, Act.recv nextTok, Act.reply, Act.produce]).mode
      = Mode.awaitReq ∧
    ((run (fun n => n) initState
        [Act.produce, Act.recv nextTok, Act.reply, Act.produce]).pushed
      = (run (fun n => n) initState
          [Act.produce, Act.recv nextTok, Act.reply, Act.produce]).sent
        ++ (run (fun n => n) initState
            [Act.produce, Act.recv nextTok, Act.reply, Act.produce]).queue) ∧
    (∃ ext, (run (fun n => n) initState
        ([Act.produce, Act.recv nextTok, Act.reply, Act.produce] ++ ext)).sent
      = (run (fun n => n) initState
          [Act.produce, Act.recv nextTok, Act.reply, Act.produce]).pushed) :=
  ⟨by decide,
   (claim_C5_fifo_delivery (fun n => n)
       [Act.produce, Act.recv nextTok, Act.reply, Act.produce]).1,
   (claim_C5_fifo_delivery (fun n => n)
       [Act.produce, Act.recv nextTok, Act.reply, Act.produce]).2 (by decide)⟩

/-- Claim C6: a request whose bytes are not exactly the token `nextTok` is fatal: no
reply is sent for it, and along every continuation the serving loop stays
stopped — it never sends another reply and never accepts another request. -/
theorem claim_C6_bad_request_fatal {α : Type} (supply : Nat → α)
    (acts₁ acts₂ : List Act) (m : List Nat) (hm : m ≠ nextTok)
    (hmode : (run supply initState acts₁).mode = .awaitReq) :
    (step supply (run supply initState acts₁) (.recv m)).sent
        = (run supply initState acts₁).sent ∧
    (run supply (step supply (run supply initState acts₁) (.recv m)) acts₂).mode
        = .stopped ∧
    (run supply (step supply (run supply initState acts₁) (.recv m)) acts₂).sent
        = (run supply initState acts₁).sent ∧
    (run supply (step supply (run supply initState acts₁) (.recv m)) acts₂).nextCount
        = (run supply initState acts₁).nextCount := by
  have hstep := step_recv_bad supply (run supply initState acts₁) m hm hmode
  have hfrozen := run_stopped_frozen supply acts₂
    (step supply (run supply initState acts₁) (.recv m)) (by rw [hstep])
  obtain ⟨g1, g2, g3⟩ := hfrozen
  refine ⟨by rw [hstep], g1, ?_, ?_⟩
  · rw [g2, hstep]
  · rw [g3, hstep]

theorem claim_C6_witness :
    ([115, 116, 111, 112] : List Nat) ≠ nextTok ∧
    (run (fun n => n) initState ([] : List Act)).mode = Mode.awaitReq ∧
    ((step (fun n => n) (run (fun n => n) initState [])
        (Act.recv [115, 116, 111, 112])).sent
      = (run (fun n => n) initState ([] : List Act)).sent ∧
    (run (fun n => n)
        (step (fun n => n) (run (fun n => n) initState [])
          (Act.recv [115, 116, 111, 112])) [Act.produce]).mode = Mode.stopped ∧
    (run (fun n => n)
        (step (fun n => n) (run (fun n => n) initState [])
          (Act.recv [115, 116, 111, 112])) [Act.produce]).sent
      = (run (fun n => n) initState ([] : List Act)).sent ∧
    (run (fun n => n)
        (step (fun n => n) (run (fun n => n) initState [])
          (Act.recv [115, 116, 111, 112])) [Act.produce]).nextCount
      = (run (fun n => n) initState ([] : List Act)).nextCount) :=
  ⟨by decide, rfl,
   claim_C6_bad_request_fatal (fun n => n) [] [Act.produce]
     [115, 116, 111, 112] (by decide) rfl⟩

/-- Claim C7: on a `next` request the server sends no reply while the queue is
empty (no step at all changes the reply log while the queue is empty), each
reply dequeues exactly one frame and appends exactly one reply, and the number
of replies sent always equals the number of accepted `next` requests minus the
one currently being served — one reply per request, never zero or two. -/
theorem claim_C7_one_reply_per_request {α : Type} (supply : Nat → α)
    (acts : List Act) :
    ((run supply initState acts).queue = [] →
      ∀ a, (step supply (run supply initState acts) a).sent
        = (run supply initState acts).sent) ∧
    ((run supply initState acts).sent.length
        + (if (run supply initState acts).mode = .awaitData then 1 else 0)
      = (run supply initState acts).nextCount) ∧
    (∀ f q, (run supply initState acts).mode = .awaitData →
      (run supply initState acts).queue = f :: q →
      step supply (run supply initState acts) .reply
        = { run supply initState acts with
            queue := q,
            sent := (run supply initState acts).sent ++ [f],
            mode := .awaitReq }) := by
  refine ⟨fun hq a => step_sent_of_empty supply _ a hq, ?_,
    fun f q hm hq => step_reply_pop supply _ f q hm hq⟩
  exact run_preserve supply
    (fun s => s.sent.length + (if s.mode = .awaitData then 1 else 0) = s.nextCount)
    (fun s a h => step_count supply s a h) acts initState (by simp [initState])

theorem claim_C7_witness :
    ((run (fun n => n) initState ([] : List Act)).queue = []) ∧
    ((step (fun n => n) (run (fun n => n) initState []) Act.reply).sent
      = (run (fun n => n) initState ([] : List Act)).sent) ∧
    ((run (fun n => n) initState [Act.produce, Act.recv nextTok]).mode
      = Mode.awaitData) ∧
    ((run (fun n => n) initState [Act.produce, Act.recv nextTok]).queue = [0]) ∧
    (step (fun n => n) (run (fun n => n) initState [Act.produce, Act.recv nextTok])
        Act.reply
      = { run (fun n => n) initState [Act.produce, Act.recv nextTok] with
          queue := ([] : List Nat),
          sent := (run (fun n => n) initState
              [Act.produce, Act.recv nextTok]).sent ++ [0],
          mode := Mode.awaitReq }) :=
  ⟨rfl,
   (claim_C7_one_reply_per_request (fun n => n) []).1 rfl Act.reply,
   by decide, by decide,
   (claim_C7_one_reply_per_request (fun n => n)
       [Act.produce, Act.recv nextTok]).2.2 0 [] (by decide) (by decide)⟩

/-- Claim C8 counterexample: selecting the unsupported encoding `"json"` and
the unsupported detector kind `"FOO"` does not fail at startup: `start_gen`
still binds the endpoint (`bound = true`), silently uses the AGIPD source for
the unknown detector, and merely leaves the serializer unselected — no fatal
error occurs before binding. -/
theorem claim_C8_counterexample :
    (start_gen_startup "json" "FOO").bound = true ∧
    selectSerializer "json" = none ∧
    "FOO" ≠ "LPD" ∧ "FOO" ≠ "AGIPD" ∧
    (start_gen_startup "json" "FOO").source
      = "SPB_DET_AGIPD1M-1/DET/detector" := by
  refine ⟨rfl, by decide, by decide, by decide, by decide⟩

/-- Claim C8 amended: `start_gen` performs no configuration validation before
binding: the endpoint is always bound; an unsupported detector kind silently
falls back to the AGIPD source and geometry; an unsupported encoding leaves no
serializer selected, the startup itself still succeeding (failure is deferred
to the first reply). -/
theorem claim_C8_startup_never_fails (ser det : String) :
    (start_gen_startup ser det).bound = true ∧
    (det ≠ "LPD" →
      (start_gen_startup ser det).source = "SPB_DET_AGIPD1M-1/DET/detector" ∧
      (start_gen_startup ser det).geom = (512, 128)) ∧
    (ser ≠ "msgpack" → ser ≠ "pickle" →
      (start_gen_startup ser det).serializer = none) := by
  refine ⟨rfl, fun hdet => ?_, fun hs1 hs2 => ?_⟩
  · constructor <;> simp [start_gen_startup, set_detector_params, hdet]
  · simp [start_gen_startup, selectSerializer, hs1, hs2]

theorem claim_C8_witness :
    ("FOO" : String) ≠ "LPD" ∧ ("json" : String) ≠ "msgpack" ∧
    ("json" : String) ≠ "pickle" ∧
    (start_gen_startup "json" "FOO").bound = true ∧
    (start_gen_startup "json" "FOO").source
      = "SPB_DET_AGIPD1M-1/DET/detector" ∧
    (start_gen_startup "json" "FOO").serializer = none :=
  ⟨by decide, by decide, by decide,
   (claim_C8_startup_never_fails "json" "FOO").1,
   ((claim_C8_startup_never_fails "json" "FOO").2.1 (by decide)).1,
   (claim_C8_startup_never_fails "json" "FOO").2.2 (by decide) (by decide)⟩

/-- Claim C9: with the AGIPD geometry (`_MOD_X = 512`, `_MOD_Y = 128`) a
generated frame has an image tensor of shape [32, 16, 512, 128] with dtype uint16,
and `cellId` and `pulseId` are each the sequence 0, 1, ..., 31. -/
theorem claim_C9_agipd_shape (source : String) (secD fracD : List (Fin 10))
    (rand : Nat → Nat → Nat → Nat → Nat) :
    (gen_combined_detector_data source 512 128 secD fracD rand).image_data.shape
      = [32, 16, 512, 128] ∧
    (gen_combined_detector_data source 512 128 secD fracD rand).image_data.dtype
      = DType.uint16 ∧
    (gen_combined_detector_data source 512 128 secD fracD rand).image_cellId.data
      = List.range 32 ∧
    (gen_combined_detector_data source 512 128 secD fracD rand).image_pulseId.data
      = List.range 32 := by
  refine ⟨rfl, rfl, ?_, ?_⟩
  · show (List.range PULSES).map (fun i => i % 2 ^ 16) = List.range 32
    decide
  · show (List.range PULSES).map (fun i => i % 2 ^ 64) = List.range 32
    decide

/-- Claim C10: `frac` is the fractional digit string parsed as a plain
integer, so leading zeros are lost: the distinct wall-clock readings 1.5 s and
1.05 s yield frames with identical `sec` and `frac` metadata. -/
theorem claim_C10_frac_drops_leading_zeros :
    readingVal [1] [5] ≠ readingVal [1] [0, 5] ∧
    (gen_combined_detector_data "src" 512 128 [1] [5]
        (fun _ _ _ _ => 0)).metadata.timestamp.sec
      = (gen_combined_detector_data "src" 512 128 [1] [0, 5]
          (fun _ _ _ _ => 0)).metadata.timestamp.sec ∧
    (gen_combined_detector_data "src" 512 128 [1] [5]
        (fun _ _ _ _ => 0)).metadata.timestamp.frac
      = (gen_combined_detector_data "src" 512 128 [1] [0, 5]
          (fun _ _ _ _ => 0)).metadata.timestamp.frac := by
  refine ⟨?_, rfl, rfl⟩
  norm_num [readingVal, fracVal, digitsToNat,
    show ((0 : Fin 10)).val = 0 from rfl, show ((1 : Fin 10)).val = 1 from rfl,
    show ((5 : Fin 10)).val = 5 from rfl]

end KaraboSim
